import Mathlib

/-!
# Verification of the GloriaFood webhook order-intake-and-dispatch pipeline

Shallow embedding of the core pipeline of the `gloriafood-webhook` repository:

* field extraction and order normalization (`src/database.ts`,
  `src/database-mysql.ts`, `insertOrUpdateOrder` and the private extractors);
* the order store, modelled as a list of rows with the `gloriafood_order_id`
  unique-key conflict semantics of the two SQL backends;
* the dispatch controller of the webhook POST handler
  (`src/webhook-mode.ts`, `setupRoutes` and `sendOrderToDoorDash`);
* the DoorDash client's three-endpoint status lookup (`doordash-client.ts`,
  `getOrderStatus`) and the connection-pool usage of the MySQL backend.

JavaScript conventions used throughout the embedding:

* a possibly-absent string field is `Option String`; the JS `a || b` chain on
  strings (where `""` and `undefined` are falsy) is `jsOr`;
* JSON numbers that the source feeds to `parseFloat` are modelled by their
  decimal string form; `parseFloat` returns `Option ℚ` with `none` playing the
  role of `NaN` (the exponent and `Infinity` forms of `parseFloat`, unused by
  the repository's inputs, are not modelled);
* `new Date().toISOString()` is an opaque `now : String` parameter;
* `JSON.stringify(orderData)` stored in `raw_data` is modelled by storing the
  payload itself.
-/

/-- An entry of the `items` array of a payload (`items` / `order_items`).
Its contents are carried through uninterpreted. -/
structure Item where
  name : String
  quantity : Nat
  price : String
deriving DecidableEq, Repr

/-- Nested `client` object of a payload (name-related fields; the
phone/email fields are not consulted by any verified property). -/
structure ClientObj where
  first_name : Option String := none
  last_name : Option String := none
  name : Option String := none
  full_name : Option String := none
  firstName : Option String := none
  lastName : Option String := none
deriving DecidableEq, Repr

/-- Nested `customer` object of a payload. -/
structure CustomerObj where
  name : Option String := none
  first_name : Option String := none
  last_name : Option String := none
  full_name : Option String := none
  firstName : Option String := none
  lastName : Option String := none
deriving DecidableEq, Repr

/-- Nested `order` object (the MySQL extractor's last-resort paths
`orderData.order.client.*`, `orderData.order.customer.*`,
`orderData.order.customer_name`). -/
structure SubOrder where
  client : Option ClientObj := none
  customer : Option CustomerObj := none
  customer_name : Option String := none
deriving DecidableEq, Repr

/-- The incoming webhook order payload, restricted to the fields read by the
normalization, extraction and dispatch code under verification. -/
structure Payload where
  id : Option String := none
  order_id : Option String := none
  store_id : Option String := none
  restaurant_id : Option String := none
  client_first_name : Option String := none
  client_last_name : Option String := none
  client_name : Option String := none
  client : Option ClientObj := none
  customer : Option CustomerObj := none
  customer_name : Option String := none
  name : Option String := none
  first_name : Option String := none
  last_name : Option String := none
  total_price : Option String := none
  total : Option String := none
  currency : Option String := none
  status : Option String := none
  order_status : Option String := none
  order_type : Option String := none
  type : Option String := none
  items : Option (List Item) := none
  order_items : Option (List Item) := none
  created_at : Option String := none
  order_date : Option String := none
  order : Option SubOrder := none
deriving DecidableEq, Repr

/-- JS `String.prototype.toLowerCase`, written over the character list so
that it reduces definitionally. -/
def lowerStr (s : String) : String :=
  ⟨s.data.map Char.toLower⟩

/-- JS `String.prototype.trim`, written over the character list so that it
reduces definitionally. -/
def trimStr (s : String) : String :=
  ⟨((s.data.dropWhile Char.isWhitespace).reverse.dropWhile Char.isWhitespace).reverse⟩

/-- JS truthiness of a possibly-absent string: present and non-empty. -/
def jsTruthy (o : Option String) : Bool :=
  match o with
  | some s => s ≠ ""
  | none => false

/-- JS `a || d` for a possibly-absent string against a string default. -/
def jsOr (a : Option String) (d : String) : String :=
  match a with
  | some s => if s = "" then d else s
  | none => d

/-- JS template `\x7ba || ''\x7d \x7bb || ''\x7d` followed by `.trim()`,
the first-name/last-name join used by every extractor. -/
def joinName (a b : Option String) : String :=
  trimStr ((a.getD "") ++ " " ++ (b.getD ""))

/-- Truthiness of `x && String(x).trim()`: present with non-empty trim. -/
def trimTruthy (o : Option String) : Bool :=
  match o with
  | some s => trimStr s ≠ ""
  | none => false

/-- Numeric value of a digit list (most significant first). -/
def digitsVal (ds : List Char) : Nat :=
  ds.foldl (fun a c => 10 * a + (c.toNat - 48)) 0

/-- Value of a fraction-digit list as a rational in `[0, 1)`. -/
def fracVal (ds : List Char) : ℚ :=
  (digitsVal ds : ℚ) / ((10 : ℚ) ^ ds.length)

/-- JS `parseFloat` on the decimal forms the repository feeds it: skip
leading whitespace, optional sign, integer digits, optional fraction.
`none` is `NaN` (no digit could be parsed); trailing garbage is ignored,
as in JS.  Exponent and `Infinity` forms are not modelled. -/
def parseFloat (s : String) : Option ℚ :=
  let cs := s.toList.dropWhile Char.isWhitespace
  let sg : ℚ := match cs with
    | '-' :: _ => -1
    | _ => 1
  let cs1 := match cs with
    | '-' :: r => r
    | '+' :: r => r
    | r => r
  let ip := cs1.takeWhile Char.isDigit
  let rest := cs1.dropWhile Char.isDigit
  let fp := match rest with
    | '.' :: r => r.takeWhile Char.isDigit
    | _ => []
  if ip.isEmpty ∧ fp.isEmpty then none
  else some (sg * ((digitsVal ip : ℚ) + fracVal fp))

/-- `OrderDatabase.extractCustomerName` of `src/database.ts` (SQLite backend):
nested `client.first_name`/`client.last_name`, then nested `customer.name`,
then flat `customer_name`, else the sentinel `"Unknown"`.  Note that this
extractor never reads the root-level `client_first_name`/`client_last_name`
fields. -/
def extractCustomerNameSqlite (p : Payload) : String :=
  if jsTruthy (p.client.bind (·.first_name)) ∨ jsTruthy (p.client.bind (·.last_name)) then
    joinName (p.client.bind (·.first_name)) (p.client.bind (·.last_name))
  else if jsTruthy (p.customer.bind (·.name)) then
    (p.customer.bind (·.name)).getD ""
  else if jsTruthy p.customer_name then
    p.customer_name.getD ""
  else "Unknown"

/-- `OrderDatabaseMySQL.extractCustomerName` of `src/database-mysql.ts`:
root-level flat `client_first_name`/`client_last_name` first, then
`client_name`, then the nested `client` object, then the nested `customer`
object, then generic root fields, then `order`-nested paths, else
`"Unknown"`.  Each `if (a || b) \x7b ... if (name) return name \x7d` block of the
source is one guard conjoined with non-emptiness of the joined name. -/
def extractCustomerNameMySQL (p : Payload) : String :=
  if (jsTruthy p.client_first_name ∨ jsTruthy p.client_last_name) ∧
      joinName p.client_first_name p.client_last_name ≠ "" then
    joinName p.client_first_name p.client_last_name
  else if trimTruthy p.client_name then trimStr (p.client_name.getD "")
  else if (jsTruthy (p.client.bind (·.first_name)) ∨ jsTruthy (p.client.bind (·.last_name))) ∧
      joinName (p.client.bind (·.first_name)) (p.client.bind (·.last_name)) ≠ "" then
    joinName (p.client.bind (·.first_name)) (p.client.bind (·.last_name))
  else if jsTruthy (p.client.bind (·.name)) then (p.client.bind (·.name)).getD ""
  else if jsTruthy (p.client.bind (·.full_name)) then (p.client.bind (·.full_name)).getD ""
  else if jsTruthy (p.client.bind (·.firstName)) then (p.client.bind (·.firstName)).getD ""
  else if jsTruthy (p.client.bind (·.lastName)) then (p.client.bind (·.lastName)).getD ""
  else if jsTruthy (p.customer.bind (·.name)) then (p.customer.bind (·.name)).getD ""
  else if (jsTruthy (p.customer.bind (·.first_name)) ∨ jsTruthy (p.customer.bind (·.last_name))) ∧
      joinName (p.customer.bind (·.first_name)) (p.customer.bind (·.last_name)) ≠ "" then
    joinName (p.customer.bind (·.first_name)) (p.customer.bind (·.last_name))
  else if jsTruthy (p.customer.bind (·.full_name)) then (p.customer.bind (·.full_name)).getD ""
  else if (jsTruthy (p.customer.bind (·.firstName)) ∨ jsTruthy (p.customer.bind (·.lastName))) ∧
      joinName (p.customer.bind (·.firstName)) (p.customer.bind (·.lastName)) ≠ "" then
    joinName (p.customer.bind (·.firstName)) (p.customer.bind (·.lastName))
  else if trimTruthy p.customer_name then trimStr (p.customer_name.getD "")
  else if trimTruthy p.name then trimStr (p.name.getD "")
  else if (jsTruthy p.first_name ∨ jsTruthy p.last_name) ∧
      joinName p.first_name p.last_name ≠ "" then
    joinName p.first_name p.last_name
  else if (jsTruthy ((p.order.bind (·.client)).bind (·.first_name)) ∨
      jsTruthy ((p.order.bind (·.client)).bind (·.last_name))) ∧
      joinName ((p.order.bind (·.client)).bind (·.first_name))
        ((p.order.bind (·.client)).bind (·.last_name)) ≠ "" then
    joinName ((p.order.bind (·.client)).bind (·.first_name))
      ((p.order.bind (·.client)).bind (·.last_name))
  else if jsTruthy ((p.order.bind (·.customer)).bind (·.name)) then
    ((p.order.bind (·.customer)).bind (·.name)).getD ""
  else if jsTruthy (p.order.bind (·.customer_name)) then
    (p.order.bind (·.customer_name)).getD ""
  else if jsTruthy ((p.order.bind (·.client)).bind (·.name)) then
    ((p.order.bind (·.client)).bind (·.name)).getD ""
  else "Unknown"

/-! ## The canonical order row and normalization -/

/-- A row of the `orders` table, restricted to the columns that the verified
properties mention.  `total_price` is `Option ℚ` with `none` for the JS `NaN`;
`sent_to_doordash` (0/1 in SQL) is a `Bool`; `raw_data` stores the payload
(`JSON.stringify` modelled as the identity). -/
structure OrderRec where
  gloriafood_order_id : String
  store_id : String
  customer_name : String
  total_price : Option ℚ
  currency : String
  status : String
  order_type : String
  items : List Item
  raw_data : Payload
  created_at : String
  updated_at : String
  fetched_at : String
  sent_to_doordash : Bool
  doordash_order_id : Option String
  doordash_sent_at : Option String
deriving DecidableEq, Repr

/-- `orderData.id?.toString() || orderData.order_id?.toString() || ''`. -/
def keyOf (p : Payload) : String :=
  jsOr p.id (jsOr p.order_id "")

/-- `orderData.created_at || orderData.order_date || new Date().toISOString()`. -/
def createdAtOf (p : Payload) (now : String) : String :=
  jsOr p.created_at (jsOr p.order_date now)

/-- `parseFloat(orderData.total_price || orderData.total || '0')`. -/
def totalPriceOf (p : Payload) : Option ℚ :=
  parseFloat (jsOr p.total_price (jsOr p.total "0"))

/-- `JSON.stringify(orderData.items || orderData.order_items || [])`
(a present-but-empty array is truthy in JS, so `Option.getD` is exact). -/
def itemsOf (p : Payload) : List Item :=
  p.items.getD (p.order_items.getD [])

/-- The `order` object built at the top of `insertOrUpdateOrder`
(both backends compute the same fields; they differ only in the extractor
used for `customer_name`). -/
def normalizeWith (extractName : Payload → String) (p : Payload) (now : String) : OrderRec where
  gloriafood_order_id := keyOf p
  store_id := jsOr p.store_id (jsOr p.restaurant_id "")
  customer_name := extractName p
  total_price := totalPriceOf p
  currency := jsOr p.currency "USD"
  status := jsOr p.status (jsOr p.order_status "unknown")
  order_type := jsOr p.order_type (jsOr p.type "unknown")
  items := itemsOf p
  raw_data := p
  created_at := createdAtOf p now
  updated_at := now
  fetched_at := now
  sent_to_doordash := false
  doordash_order_id := none
  doordash_sent_at := none

/-- Normalization as performed by `OrderDatabase.insertOrUpdateOrder`. -/
def normalizeSqlite : Payload → String → OrderRec :=
  normalizeWith extractCustomerNameSqlite

/-- Normalization as performed by `OrderDatabaseMySQL.insertOrUpdateOrder`. -/
def normalizeMySQL : Payload → String → OrderRec :=
  normalizeWith extractCustomerNameMySQL

/-! ## The order store -/

/-- The `orders` table as a list of rows (insertion order preserved;
`gloriafood_order_id` is the unique key enforced by the conflict clauses). -/
abbrev Store := List OrderRec

/-- Row keyed test used by `WHERE gloriafood_order_id = ?`. -/
def keyMatches (k : String) (r : OrderRec) : Bool :=
  r.gloriafood_order_id == k

/-- `getOrderByGloriaFoodId`: `SELECT * FROM orders WHERE gloriafood_order_id = ?`. -/
def findRec (s : Store) (k : String) : Option OrderRec :=
  s.find? (keyMatches k)

/-- In-place update of the rows matching a key (SQL `UPDATE ... WHERE`). -/
def updateRec (s : Store) (k : String) (f : OrderRec → OrderRec) : Store :=
  s.map (fun r => if keyMatches k r then f r else r)

/-- Number of stored rows carrying a given key. -/
def countKey (s : Store) (k : String) : Nat :=
  (s.filter (keyMatches k)).length

/-- The `ON CONFLICT(gloriafood_order_id) DO UPDATE SET` clause of the SQLite
backend: only `status`, `total_price`, `updated_at`, `fetched_at` and
`raw_data` are overwritten by the excluded (new) row. -/
def sqliteConflictUpdate (o : OrderRec) (r : OrderRec) : OrderRec :=
  { r with
    status := o.status
    total_price := o.total_price
    updated_at := o.updated_at
    fetched_at := o.fetched_at
    raw_data := o.raw_data }

/-- The `ON DUPLICATE KEY UPDATE` clause of the MySQL backend: additionally
overwrites `customer_name`, `order_type` and `items` (the source also
overwrites the phone/email/address columns, which are outside the modelled
row). -/
def mysqlConflictUpdate (o : OrderRec) (r : OrderRec) : OrderRec :=
  { r with
    customer_name := o.customer_name
    status := o.status
    total_price := o.total_price
    order_type := o.order_type
    items := o.items
    updated_at := o.updated_at
    fetched_at := o.fetched_at
    raw_data := o.raw_data }

/-- `insertOrUpdateOrder` of either backend: normalize, insert-or-conflict-
update keyed on `gloriafood_order_id`, then read the row back
(`return this.getOrderByGloriaFoodId(order.gloriafood_order_id)`). -/
def insertOrUpdateWith (normalize : Payload → String → OrderRec)
    (conflict : OrderRec → OrderRec → OrderRec)
    (s : Store) (p : Payload) (now : String) : Store × Option OrderRec :=
  let o := normalize p now
  let k := o.gloriafood_order_id
  let s1 := match findRec s k with
    | none => s ++ [o]
    | some _ => updateRec s k (conflict o)
  (s1, findRec s1 k)

/-- `OrderDatabase.insertOrUpdateOrder` (SQLite). -/
def sqliteUpsert : Store → Payload → String → Store × Option OrderRec :=
  fun s p now => insertOrUpdateWith normalizeSqlite sqliteConflictUpdate s p now

/-- `OrderDatabaseMySQL.insertOrUpdateOrder`. -/
def mysqlUpsert : Store → Payload → String → Store × Option OrderRec :=
  fun s p now => insertOrUpdateWith normalizeMySQL mysqlConflictUpdate s p now

/-- `markOrderSentToDoorDash`: `sent_to_doordash = 1`,
`doordash_order_id = COALESCE(?, doordash_order_id)` where the bound
parameter is `doordashOrderId || null`, `doordash_sent_at = now`,
`updated_at = now`, on the rows matching the id. -/
def markSent (s : Store) (k : String) (ddid : Option String) (now : String) : Store :=
  updateRec s k (fun r =>
    { r with
      sent_to_doordash := true
      doordash_order_id :=
        match ddid with
        | some d => if d = "" then r.doordash_order_id else some d
        | none => r.doordash_order_id
      doordash_sent_at := some now
      updated_at := now })

/-! ## The dispatch controller (webhook POST handler) -/

/-- Outcome of the outbound `createDriveDelivery` POST, were it attempted on
this event: `ok ddid` is a 2xx response whose body yielded `ddid` as the
delivery id, `fail` is a thrown error (non-2xx or network). -/
inductive DDOutcome where
  | ok (ddid : Option String)
  | fail
deriving DecidableEq, Repr

/-- One inbound webhook event: the payload, whether the storage layer works
on this event (`false` makes `insertOrUpdateOrder` return `null`), the
partner outcome, and the event's clock value. -/
structure Event where
  payload : Payload
  dbOk : Bool
  outcome : DDOutcome
  now : String
deriving DecidableEq, Repr

/-- `(orderData.type || orderData.order_type || '').toLowerCase()` — the
delivery-gating expression, written identically in `sendOrderToDoorDash`
(line 90) and in the webhook handler (line 315). -/
def gatingType (p : Payload) : String :=
  lowerStr (jsOr p.type (jsOr p.order_type ""))

/-- `sendOrderToDoorDash`: returns `(resp, attempted)` where `resp` is the
JS return value (`some ddid` for the truthy response object, `none` for the
`null` of the skip and catch paths) and `attempted` records whether
`createDriveDelivery` was invoked. -/
def sendOrderToDoorDash (cfg : Bool) (p : Payload) (oc : DDOutcome) :
    Option (Option String) × Bool :=
  if !cfg then (none, false)
  else if gatingType p ≠ "delivery" then (none, false)
  else match oc with
    | .ok ddid => (some ddid, true)
    | .fail => (none, true)

/-- Result of handling one webhook POST: the store afterwards, whether a
partner dispatch was attempted, and the HTTP response
(status code, `success` flag of the JSON body). -/
structure StepResult where
  store : Store
  attempted : Bool
  httpStatus : Nat
  success : Bool
deriving DecidableEq, Repr

/-- `orderData.id || orderData.order_id || 'unknown'` (line 298) — note the
`'unknown'` default, distinct from the `''` default used inside
`insertOrUpdateOrder`. -/
def orderKeyOf (p : Payload) : String :=
  jsOr p.id (jsOr p.order_id "unknown")

/-- The dispatch decision of the handler: the `isNew` branch dispatches every
delivery order; the update branch (`else`) dispatches a delivery order only
when the *prior* row was not yet sent (`wasNotSent`, the truthiness test on
`existingBefore?.sent_to_doordash`).  The two branches run the same dispatch
body, so they are folded into one guard. -/
def shouldDispatch (existingBefore : Option OrderRec) (p : Payload) : Bool :=
  let isNew := existingBefore.isNone
  let wasNotSent := !(existingBefore.elim false (·.sent_to_doordash))
  let isDelivery := gatingType p == "delivery"
  (isNew && isDelivery) || (!isNew && isDelivery && wasNotSent)

/-- The webhook POST handler of `setupRoutes` (lines 298-402), over the
SQLite-backed store: read `existingBefore`, upsert, then for a new delivery
order (or an updated delivery order whose prior row was not yet sent)
attempt the dispatch and mark the row on success; storage failure yields a
500, everything else a 200 `success: true`. -/
def webhookStep (cfg : Bool) (s : Store) (ev : Event) : StepResult :=
  let p := ev.payload
  let orderId := orderKeyOf p
  let existingBefore := findRec s orderId
  let saved := if ev.dbOk then sqliteUpsert s p ev.now else (s, none)
  match saved.2 with
  | none => ⟨saved.1, false, 500, false⟩
  | some _ =>
    if shouldDispatch existingBefore p then
      let sent := sendOrderToDoorDash cfg p ev.outcome
      let s2 := match sent.1 with
        | some ddid => markSent saved.1 orderId ddid ev.now
        | none => saved.1
      ⟨s2, sent.2, 200, true⟩
    else
      ⟨saved.1, false, 200, true⟩

/-- Process a list of webhook events, counting partner dispatch attempts. -/
def runEvents (cfg : Bool) : Store → List Event → Store × Nat
  | s, [] => (s, 0)
  | s, e :: rest =>
    let r := webhookStep cfg s e
    let rec2 := runEvents cfg r.store rest
    (rec2.1, (if r.attempted then 1 else 0) + rec2.2)

/-! ## DoorDash status lookup (`DoorDashClient.getOrderStatus`) -/

/-- What one of the three lookup endpoints answers: a 2xx with a body
(carried as an opaque string), an HTTP error with a status code
(`error.response` present), or a network error without a response. -/
inductive EndpointResult where
  | ok (data : String)
  | errResp (status : Nat)
  | errNet
deriving DecidableEq, Repr

/-- The observable outcome of `getOrderStatus`: the successful return value,
or one of the thrown errors (missing identifier, the friendlier 404 message,
the generic API error carrying the upstream status, or the no-response
fallback). -/
inductive StatusOutcome where
  | success (data : String)
  | missingId
  | notFound
  | apiError (code : Nat)
  | unknownFailure
deriving DecidableEq, Repr

/-- The `for (const path of tryEndpoints)` loop: return on the first
success, otherwise remember the error in `lastError` and continue. -/
def statusLoop : List EndpointResult → Option EndpointResult →
    Option String × Option EndpointResult
  | [], last => (none, last)
  | .ok d :: _, last => (some d, last)
  | r :: rest, _ => statusLoop rest (some r)

/-- First successful endpoint answer, if any. -/
def firstOk : List EndpointResult → Option String
  | [] => none
  | .ok d :: _ => some d
  | _ :: rest => firstOk rest

/-- `DoorDashClient.getOrderStatus` (lines 326-367), with the three
endpoint answers given in route order (by delivery id, by external id, by
the legacy external-id route): empty key throws; otherwise loop over the
endpoints; if none succeeded, classify by `lastError` — a 404 response gets
the friendlier not-found error, another response the generic API error with
its status, no response the unknown-error fallback. -/
def getOrderStatus (key : String) (rs : List EndpointResult) : StatusOutcome :=
  if trimStr key = "" then .missingId
  else
    match statusLoop rs none with
    | (some d, _) => .success d
    | (none, some (.errResp c)) => if c = 404 then .notFound else .apiError c
    | (none, _) => .unknownFailure

/-! ## MySQL connection-pool usage -/

/-- An interaction with the MySQL connection pool. -/
inductive PoolEvent where
  | acquire
  | release
deriving DecidableEq, Repr

/-- How far a pooled MySQL operation gets: `pool.getConnection()` throws,
`connection.query(...)` throws, or everything succeeds. -/
inductive PoolOutcome where
  | getConnFails
  | queryFails
  | ok
deriving DecidableEq, Repr

/-- Pool interactions of `OrderDatabaseMySQL.getOrderByGloriaFoodId`
(lines 417-431): acquire, query, release; the `catch` block returns `null`
without releasing, so a query error exits after the acquire alone. -/
def mysqlGetOrderPoolTrace : PoolOutcome → List PoolEvent
  | .getConnFails => []
  | .queryFails => [.acquire]
  | .ok => [.acquire, .release]

/-- Pool interactions of `OrderDatabaseMySQL.insertOrUpdateOrder`
(lines 147-196): acquire, query, release, then the read-back via
`getOrderByGloriaFoodId` (with its own pool outcome); the `catch` block
returns `null` without releasing, so a query error exits after the acquire
alone. -/
def mysqlInsertPoolTrace : PoolOutcome → PoolOutcome → List PoolEvent
  | .getConnFails, _ => []
  | .queryFails, _ => [.acquire]
  | .ok, readback => [.acquire, .release] ++ mysqlGetOrderPoolTrace readback

/-- A trace holds no leaked handle when acquires and releases balance. -/
def poolBalanced (t : List PoolEvent) : Bool :=
  t.count .acquire == t.count .release

/-! ## Concrete inputs -/

/-- The spec's concrete scenario payload (§8), extended with a conflicting
nested `customer.name` for the extraction-precedence property. -/
def pAna : Payload :=
  { id := some "555", type := some "delivery",
    client_first_name := some "Ana", client_last_name := some "Cruz",
    customer := some { name := some "Bob Stone" },
    total_price := some "25.00" }

/-- New delivery order event for `pAna`, with a successful partner call. -/
def evNew : Event := ⟨pAna, true, .ok (some "dd-1"), "t1"⟩

/-- A status-changed update of `pAna`. -/
def pAnaUpd (st : String) : Payload := { pAna with status := some st }

/-- First status-changed update event. -/
def evUpd1 : Event := ⟨pAnaUpd "accepted", true, .ok (some "dd-2"), "t2"⟩

/-- Second status-changed update event. -/
def evUpd2 : Event := ⟨pAnaUpd "preparing", true, .ok (some "dd-3"), "t3"⟩

/-- Third status-changed update event. -/
def evUpd3 : Event := ⟨pAnaUpd "ready", true, .ok (some "dd-4"), "t4"⟩

/-- New delivery order event for `pAna` whose partner call fails
(simulated partner 500: `createDriveDelivery` throws). -/
def evNewFail : Event := ⟨pAna, true, .fail, "t1"⟩

/-- Minimal order payload with a given id and order type. -/
def pTyped (i : String) (t : Option String) : Payload := { id := some i, type := t }

/-- Payload whose `total_price` does not parse as a number. -/
def pBadPrice : Payload := { id := some "77", total_price := some "abc" }

/-- First payload of the conflict-update items scenario. -/
def pItems1 : Payload :=
  { id := some "9", items := some [{ name := "Adobo", quantity := 1, price := "10.00" }] }

/-- Second payload of the conflict-update items scenario: same id,
different items. -/
def pItems2 : Payload :=
  { id := some "9", items := some [{ name := "Sinigang", quantity := 2, price := "7.50" }] }

/-! ## Store lemmas -/

theorem findRec_nil (k : String) : findRec [] k = none := rfl

theorem findRec_append (s t : Store) (k : String) :
    findRec (s ++ t) k = (findRec s k).orElse (fun _ => findRec t k) := by
  simp [findRec, List.find?_append, Option.or_eq_orElse]

theorem findRec_singleton_self (r : OrderRec) :
    findRec [r] r.gloriafood_order_id = some r := by
  simp [findRec, List.find?, keyMatches]

theorem findRec_eq_none_of_countKey_zero {s : Store} {k : String}
    (h : countKey s k = 0) : findRec s k = none := by
  rw [countKey, List.length_eq_zero] at h
  rw [findRec, List.find?_eq_none]
  intro r hr
  exact (List.filter_eq_nil_iff.mp h) r hr

theorem countKey_append (s t : Store) (k : String) :
    countKey (s ++ t) k = countKey s k + countKey t k := by
  simp [countKey, List.filter_append]

theorem countKey_singleton_self (r : OrderRec) :
    countKey [r] r.gloriafood_order_id = 1 := by
  simp [countKey, List.filter, keyMatches]

theorem findRec_updateRec {f : OrderRec → OrderRec}
    (hf : ∀ r, (f r).gloriafood_order_id = r.gloriafood_order_id)
    (s : Store) (k : String) :
    findRec (updateRec s k f) k = (findRec s k).map f := by
  induction s with
  | nil => rfl
  | cons r rest ih =>
    by_cases h : keyMatches k r
    · have h2 : keyMatches k (f r) = true := by
        simp only [keyMatches] at h ⊢
        rw [hf]; exact h
      simp [updateRec, findRec, List.find?, h, h2]
    · have h' : keyMatches k r = false := by simpa using h
      simp only [updateRec, List.map, h', if_neg, Bool.false_eq_true, not_false_iff,
        ite_false]
      simp only [findRec, List.find?, h']
      exact ih

theorem countKey_updateRec {f : OrderRec → OrderRec}
    (hf : ∀ r, (f r).gloriafood_order_id = r.gloriafood_order_id)
    (s : Store) (k k2 : String) :
    countKey (updateRec s k f) k2 = countKey s k2 := by
  induction s with
  | nil => rfl
  | cons r rest ih =>
    have hkeep : ∀ q : OrderRec, keyMatches k2 (if keyMatches k q then f q else q)
        = keyMatches k2 q := by
      intro q
      by_cases h : keyMatches k q
      · simp only [keyMatches] at h ⊢
        simp only [h, if_true, hf]
      · simp only [keyMatches] at h ⊢
        simp [h]
    simp only [updateRec, List.map, countKey, List.filter] at ih ⊢
    rw [hkeep]
    by_cases h2 : keyMatches k2 r
    · simp [h2, ih]
    · simp only [h2] at ih ⊢
      simpa using ih

/-! ## Upsert lemmas -/

theorem normalizeWith_key (e : Payload → String) (p : Payload) (now : String) :
    (normalizeWith e p now).gloriafood_order_id = keyOf p := rfl

theorem sqliteConflictUpdate_key (o r : OrderRec) :
    (sqliteConflictUpdate o r).gloriafood_order_id = r.gloriafood_order_id := rfl

theorem mysqlConflictUpdate_key (o r : OrderRec) :
    (mysqlConflictUpdate o r).gloriafood_order_id = r.gloriafood_order_id := rfl

theorem insertOrUpdateWith_fresh (normalize : Payload → String → OrderRec)
    (conflict : OrderRec → OrderRec → OrderRec) (s : Store) (p : Payload) (now : String)
    (h : findRec s ((normalize p now).gloriafood_order_id) = none) :
    insertOrUpdateWith normalize conflict s p now
      = (s ++ [normalize p now], some (normalize p now)) := by
  simp only [insertOrUpdateWith, h]
  rw [findRec_append, h]
  simp only [Option.orElse]
  rw [findRec_singleton_self]

theorem insertOrUpdateWith_existing (normalize : Payload → String → OrderRec)
    (conflict : OrderRec → OrderRec → OrderRec)
    (hc : ∀ o r, (conflict o r).gloriafood_order_id = r.gloriafood_order_id)
    (s : Store) (p : Payload) (now : String) (r : OrderRec)
    (h : findRec s ((normalize p now).gloriafood_order_id) = some r) :
    insertOrUpdateWith normalize conflict s p now
      = (updateRec s ((normalize p now).gloriafood_order_id) (conflict (normalize p now)),
         some (conflict (normalize p now) r)) := by
  simp only [insertOrUpdateWith, h]
  rw [findRec_updateRec (hc _) s, h, Option.map_some']

/-! ## Controller lemmas -/

theorem sqliteUpsert_fresh (s : Store) (p : Payload) (now : String)
    (h : findRec s (keyOf p) = none) :
    sqliteUpsert s p now = (s ++ [normalizeSqlite p now], some (normalizeSqlite p now)) :=
  insertOrUpdateWith_fresh _ _ s p now h

theorem sqliteUpsert_existing (s : Store) (p : Payload) (now : String) (r : OrderRec)
    (h : findRec s (keyOf p) = some r) :
    sqliteUpsert s p now
      = (updateRec s (keyOf p) (sqliteConflictUpdate (normalizeSqlite p now)),
         some (sqliteConflictUpdate (normalizeSqlite p now) r)) :=
  insertOrUpdateWith_existing _ _ sqliteConflictUpdate_key s p now r h

theorem mysqlUpsert_fresh (s : Store) (p : Payload) (now : String)
    (h : findRec s (keyOf p) = none) :
    mysqlUpsert s p now = (s ++ [normalizeMySQL p now], some (normalizeMySQL p now)) :=
  insertOrUpdateWith_fresh _ _ s p now h

theorem mysqlUpsert_existing (s : Store) (p : Payload) (now : String) (r : OrderRec)
    (h : findRec s (keyOf p) = some r) :
    mysqlUpsert s p now
      = (updateRec s (keyOf p) (mysqlConflictUpdate (normalizeMySQL p now)),
         some (mysqlConflictUpdate (normalizeMySQL p now) r)) :=
  insertOrUpdateWith_existing _ _ mysqlConflictUpdate_key s p now r h

theorem sqliteUpsert_snd_isSome (s : Store) (p : Payload) (now : String) :
    ((sqliteUpsert s p now).2).isSome := by
  cases h : findRec s (keyOf p) with
  | none => rw [sqliteUpsert_fresh s p now h]; rfl
  | some r => rw [sqliteUpsert_existing s p now r h]; rfl

theorem shouldDispatch_none (p : Payload) :
    shouldDispatch none p = (gatingType p == "delivery") := by
  simp [shouldDispatch]

theorem shouldDispatch_some (r : OrderRec) (p : Payload) :
    shouldDispatch (some r) p = ((gatingType p == "delivery") && !r.sent_to_doordash) := by
  cases hs : r.sent_to_doordash <;> simp [shouldDispatch, hs]

theorem sendOrderToDoorDash_snd (cfg : Bool) (p : Payload) (oc : DDOutcome) :
    (sendOrderToDoorDash cfg p oc).2 = (cfg && (gatingType p == "delivery")) := by
  cases cfg with
  | false => simp [sendOrderToDoorDash]
  | true =>
    by_cases h : gatingType p = "delivery"
    · cases oc <;> simp [sendOrderToDoorDash, h]
    · cases oc <;> simp [sendOrderToDoorDash, h]

/-- Shape of a handled event when storage works: a 200 `success: true`
response, dispatch iff `shouldDispatch` on the pre-upsert row, row marked
sent only on a successful dispatch. -/
theorem webhookStep_eq (cfg : Bool) (s : Store) (ev : Event) (hdb : ev.dbOk = true) :
    webhookStep cfg s ev =
      if shouldDispatch (findRec s (orderKeyOf ev.payload)) ev.payload then
        { store :=
            match (sendOrderToDoorDash cfg ev.payload ev.outcome).1 with
            | some ddid =>
              markSent (sqliteUpsert s ev.payload ev.now).1 (orderKeyOf ev.payload) ddid ev.now
            | none => (sqliteUpsert s ev.payload ev.now).1
          attempted := (sendOrderToDoorDash cfg ev.payload ev.outcome).2
          httpStatus := 200
          success := true }
      else
        { store := (sqliteUpsert s ev.payload ev.now).1
          attempted := false
          httpStatus := 200
          success := true } := by
  have hsome := sqliteUpsert_snd_isSome s ev.payload ev.now
  cases hs : (sqliteUpsert s ev.payload ev.now).2 with
  | none => rw [hs] at hsome; simp at hsome
  | some o =>
    simp only [webhookStep, hdb, if_true, hs]

theorem webhookStep_dbFail (cfg : Bool) (s : Store) (ev : Event) (hdb : ev.dbOk = false) :
    webhookStep cfg s ev = ⟨s, false, 500, false⟩ := by
  simp only [webhookStep, hdb, if_false, Bool.false_eq_true]

theorem webhookStep_attempted (cfg : Bool) (s : Store) (ev : Event) (hdb : ev.dbOk = true) :
    (webhookStep cfg s ev).attempted =
      (shouldDispatch (findRec s (orderKeyOf ev.payload)) ev.payload &&
       (cfg && (gatingType ev.payload == "delivery"))) := by
  rw [webhookStep_eq cfg s ev hdb]
  by_cases h : shouldDispatch (findRec s (orderKeyOf ev.payload)) ev.payload = true
  · simp [h, sendOrderToDoorDash_snd]
  · simp only [Bool.not_eq_true] at h
    simp [h]

theorem attempted_false_of_sent (cfg : Bool) (s : Store) (ev : Event)
    (h : (findRec s (orderKeyOf ev.payload)).map (·.sent_to_doordash) = some true) :
    (webhookStep cfg s ev).attempted = false := by
  obtain ⟨r, hr, hsent⟩ := Option.map_eq_some'.mp h
  cases hdb : ev.dbOk with
  | false => rw [webhookStep_dbFail cfg s ev hdb]
  | true =>
    rw [webhookStep_attempted cfg s ev hdb, hr, shouldDispatch_some, hsent]
    simp

theorem sendOrderToDoorDash_fail (p : Payload) (h : gatingType p = "delivery") :
    sendOrderToDoorDash true p .fail = (none, true) := by
  simp [sendOrderToDoorDash, h]

theorem jsOr_of_not_truthy (a : Option String) (d : String) (h : jsTruthy a = false) :
    jsOr a d = d := by
  cases a with
  | none => rfl
  | some s =>
    simp only [jsTruthy, ne_eq, decide_not, Bool.not_eq_false', decide_eq_true_eq] at h
    simp [jsOr, h]

theorem keyOf_of_id (p : Payload) (i : String) (hid : p.id = some i) (hne : i ≠ "") :
    keyOf p = i := by
  simp [keyOf, jsOr, hid, hne]

theorem orderKeyOf_of_id (p : Payload) (i : String) (hid : p.id = some i) (hne : i ≠ "") :
    orderKeyOf p = i := by
  simp [orderKeyOf, jsOr, hid, hne]

theorem parseFloat_zero : parseFloat "0" = some 0 := by
  simp [parseFloat, digitsVal, fracVal]

/-- Two upserts with the same fresh key, for either backend: the first
appends the normalized row, the second conflict-updates it in place; the
key keeps exactly one row. -/
theorem upsert_twice_eq (normalize : Payload → String → OrderRec)
    (conflict : OrderRec → OrderRec → OrderRec)
    (hc : ∀ o r, (conflict o r).gloriafood_order_id = r.gloriafood_order_id)
    (hn : ∀ p now, (normalize p now).gloriafood_order_id = keyOf p)
    (s : Store) (p1 p2 : Payload) (n1 n2 k : String)
    (hk1 : keyOf p1 = k) (hk2 : keyOf p2 = k) (hfresh : countKey s k = 0) :
    insertOrUpdateWith normalize conflict s p1 n1
      = (s ++ [normalize p1 n1], some (normalize p1 n1)) ∧
    insertOrUpdateWith normalize conflict (s ++ [normalize p1 n1]) p2 n2
      = (updateRec (s ++ [normalize p1 n1]) k (conflict (normalize p2 n2)),
         some (conflict (normalize p2 n2) (normalize p1 n1))) ∧
    findRec (updateRec (s ++ [normalize p1 n1]) k (conflict (normalize p2 n2))) k
      = some (conflict (normalize p2 n2) (normalize p1 n1)) ∧
    countKey (updateRec (s ++ [normalize p1 n1]) k (conflict (normalize p2 n2))) k = 1 ∧
    findRec (s ++ [normalize p1 n1]) k = some (normalize p1 n1) := by
  have h0 : findRec s k = none := findRec_eq_none_of_countKey_zero hfresh
  have hfind1 : findRec (s ++ [normalize p1 n1]) k = some (normalize p1 n1) := by
    rw [findRec_append, h0]
    simp only [Option.orElse]
    have := findRec_singleton_self (normalize p1 n1)
    rw [hn p1 n1, hk1] at this
    exact this
  have h1 : insertOrUpdateWith normalize conflict s p1 n1
      = (s ++ [normalize p1 n1], some (normalize p1 n1)) := by
    apply insertOrUpdateWith_fresh
    rw [hn p1 n1, hk1]
    exact h0
  have h2 : insertOrUpdateWith normalize conflict (s ++ [normalize p1 n1]) p2 n2
      = (updateRec (s ++ [normalize p1 n1]) k (conflict (normalize p2 n2)),
         some (conflict (normalize p2 n2) (normalize p1 n1))) := by
    have := insertOrUpdateWith_existing normalize conflict hc
      (s ++ [normalize p1 n1]) p2 n2 (normalize p1 n1) (by rw [hn p2 n2, hk2]; exact hfind1)
    rw [hn p2 n2, hk2] at this
    exact this
  refine ⟨h1, h2, ?_, ?_, hfind1⟩
  · rw [findRec_updateRec (hc _), hfind1, Option.map_some']
  · rw [countKey_updateRec (hc _), countKey_append, hfresh]
    have := countKey_singleton_self (normalize p1 n1)
    rw [hn p1 n1, hk1] at this
    rw [this]

theorem normalizeSqlite_key (p : Payload) (now : String) :
    (normalizeSqlite p now).gloriafood_order_id = keyOf p := rfl

theorem normalizeMySQL_key (p : Payload) (now : String) :
    (normalizeMySQL p now).gloriafood_order_id = keyOf p := rfl

theorem statusLoop_fst (rs : List EndpointResult) (last : Option EndpointResult) :
    (statusLoop rs last).1 = firstOk rs := by
  induction rs generalizing last with
  | nil => rfl
  | cons r rest ih =>
    cases r with
    | ok d => rfl
    | errResp c => simpa [statusLoop, firstOk] using ih (some (.errResp c))
    | errNet => simpa [statusLoop, firstOk] using ih (some .errNet)

theorem statusLoop_snd_of_noOk (rs : List EndpointResult) (last : Option EndpointResult)
    (hok : firstOk rs = none) (hne : rs ≠ []) :
    (statusLoop rs last).2 = rs.getLast? := by
  induction rs generalizing last with
  | nil => exact absurd rfl hne
  | cons r rest ih =>
    cases r with
    | ok d => simp [firstOk] at hok
    | errResp c =>
      cases rest with
      | nil => rfl
      | cons r2 rest2 =>
        rw [List.getLast?_cons_cons]
        exact ih (some (.errResp c)) (by simpa [firstOk] using hok) (by simp)
    | errNet =>
      cases rest with
      | nil => rfl
      | cons r2 rest2 =>
        rw [List.getLast?_cons_cons]
        exact ih (some .errNet) (by simpa [firstOk] using hok) (by simp)

/-! ## Claims -/

/-- C1: once a successful dispatch has been recorded for an order id
(`sent_to_doordash` set by `markOrderSentToDoorDash`), no later webhook
event for that id attempts the partner `createDelivery` again; concretely,
a new delivery order followed by three status-changed updates after a
successful first dispatch invokes the partner exactly once across the four
events. -/
theorem single_dispatch_after_success :
    (∀ (cfg : Bool) (s : Store) (ev : Event),
        (findRec s (orderKeyOf ev.payload)).map (·.sent_to_doordash) = some true →
        (webhookStep cfg s ev).attempted = false) ∧
    (runEvents true [] [evNew, evUpd1, evUpd2, evUpd3]).2 = 1 :=
  ⟨attempted_false_of_sent, by decide⟩

theorem single_dispatch_after_success_witness :
    (webhookStep true (runEvents true [] [evNew]).1 evUpd1).attempted = false :=
  single_dispatch_after_success.1 true (runEvents true [] [evNew]).1 evUpd1 (by decide)

/-- C3: on any inbound event, a partner dispatch is attempted only if the
order's type field lowercases to `"delivery"`; conversely, on an event whose
id is new or whose stored row is not yet marked sent (with the partner
client configured and storage working), a dispatch is attempted exactly
when the type lowercases to `"delivery"` — so it is attempted for
`"Delivery"`, `"DELIVERY"`, `"delivery"` and never for `"pickup"`,
`"dine-in"` or an absent type, the latter being persisted only. -/
theorem dispatch_gating_delivery_only :
    (∀ (cfg : Bool) (s : Store) (ev : Event),
        gatingType ev.payload ≠ "delivery" →
        (webhookStep cfg s ev).attempted = false) ∧
    (∀ (s : Store) (ev : Event), ev.dbOk = true →
        (findRec s (orderKeyOf ev.payload)).map (·.sent_to_doordash) ≠ some true →
        ((webhookStep true s ev).attempted = true ↔ gatingType ev.payload = "delivery")) ∧
    ((webhookStep true [] ⟨pTyped "1" (some "Delivery"), true, .ok none, "t"⟩).attempted = true ∧
     (webhookStep true [] ⟨pTyped "2" (some "DELIVERY"), true, .ok none, "t"⟩).attempted = true ∧
     (webhookStep true [] ⟨pTyped "3" (some "delivery"), true, .ok none, "t"⟩).attempted = true ∧
     (webhookStep true [] ⟨pTyped "4" (some "pickup"), true, .ok none, "t"⟩).attempted = false ∧
     (webhookStep true [] ⟨pTyped "5" (some "dine-in"), true, .ok none, "t"⟩).attempted = false ∧
     (webhookStep true [] ⟨pTyped "6" none, true, .ok none, "t"⟩).attempted = false ∧
     countKey (webhookStep true [] ⟨pTyped "4" (some "pickup"), true, .ok none, "t"⟩).store
       "4" = 1) := by
  refine ⟨?_, ?_, by decide⟩
  · intro cfg s ev h
    cases hdb : ev.dbOk with
    | false => rw [webhookStep_dbFail cfg s ev hdb]
    | true =>
      rw [webhookStep_attempted cfg s ev hdb]
      have hb : (gatingType ev.payload == "delivery") = false := by
        simpa using h
      simp [hb]
  · intro s ev hdb hns
    rw [webhookStep_attempted true s ev hdb]
    cases hfind : findRec s (orderKeyOf ev.payload) with
    | none =>
      rw [shouldDispatch_none]
      by_cases hg : gatingType ev.payload = "delivery" <;> simp [hg]
    | some r =>
      cases hsent : r.sent_to_doordash with
      | true =>
        exact absurd (by rw [hfind, Option.map_some', hsent]) hns
      | false =>
        rw [shouldDispatch_some, hsent]
        by_cases hg : gatingType ev.payload = "delivery" <;> simp [hg]

theorem dispatch_gating_delivery_only_witness :
    (webhookStep true [] ⟨pTyped "w" (some "DELIVERY"), true, .ok none, "t"⟩).attempted = true
      ↔ gatingType (pTyped "w" (some "DELIVERY")) = "delivery" :=
  dispatch_gating_delivery_only.2.1 [] ⟨pTyped "w" (some "DELIVERY"), true, .ok none, "t"⟩
    (by decide) (by decide)

/-- C4: a delivery order whose first dispatch attempt fails keeps
`sent_to_doordash` false, the inbound webhook still answers 200
`success: true`, and a later update event for the same id (still delivery,
still unsent) makes a second dispatch attempt. -/
theorem dispatch_retry_after_failure (s : Store) (e1 e2 : Event) (i : String)
    (hdb1 : e1.dbOk = true) (hoc : e1.outcome = .fail)
    (hdel1 : gatingType e1.payload = "delivery")
    (hid : e1.payload.id = some i) (hne : i ≠ "")
    (hfresh : findRec s i = none)
    (hdb2 : e2.dbOk = true) (hdel2 : gatingType e2.payload = "delivery")
    (hkey2 : orderKeyOf e2.payload = i) :
    (webhookStep true s e1).attempted = true ∧
    (webhookStep true s e1).httpStatus = 200 ∧
    (webhookStep true s e1).success = true ∧
    (findRec (webhookStep true s e1).store i).map (·.sent_to_doordash) = some false ∧
    (webhookStep true (webhookStep true s e1).store e2).attempted = true := by
  have hkey : keyOf e1.payload = i := keyOf_of_id _ _ hid hne
  have hokey : orderKeyOf e1.payload = i := orderKeyOf_of_id _ _ hid hne
  have hfreshk : findRec s (keyOf e1.payload) = none := by rw [hkey]; exact hfresh
  have hupsert := sqliteUpsert_fresh s e1.payload e1.now hfreshk
  have hsend : sendOrderToDoorDash true e1.payload e1.outcome = (none, true) := by
    rw [hoc]; exact sendOrderToDoorDash_fail _ hdel1
  have hstep1 : webhookStep true s e1 =
      { store := s ++ [normalizeSqlite e1.payload e1.now]
        attempted := true
        httpStatus := 200
        success := true } := by
    rw [webhookStep_eq true s e1 hdb1, hokey, hfresh, shouldDispatch_none, hdel1]
    simp [hsend, hupsert]
  have hfind1 : findRec (s ++ [normalizeSqlite e1.payload e1.now]) i
      = some (normalizeSqlite e1.payload e1.now) := by
    rw [findRec_append, hfresh]
    simp only [Option.orElse]
    have := findRec_singleton_self (normalizeSqlite e1.payload e1.now)
    rw [normalizeSqlite_key, hkey] at this
    exact this
  refine ⟨by rw [hstep1], by rw [hstep1], by rw [hstep1], ?_, ?_⟩
  · rw [hstep1]
    dsimp only
    rw [hfind1]
    rfl
  · rw [hstep1]
    dsimp only
    rw [webhookStep_attempted true _ e2 hdb2, hkey2, hfind1, shouldDispatch_some]
    have hsent : (normalizeSqlite e1.payload e1.now).sent_to_doordash = false := rfl
    rw [hsent]
    simp [hdel2]

theorem dispatch_retry_after_failure_witness :
    (webhookStep true [] evNewFail).attempted = true ∧
    (webhookStep true [] evNewFail).httpStatus = 200 ∧
    (webhookStep true [] evNewFail).success = true ∧
    (findRec (webhookStep true [] evNewFail).store "555").map (·.sent_to_doordash)
      = some false ∧
    (webhookStep true (webhookStep true [] evNewFail).store evUpd1).attempted = true :=
  dispatch_retry_after_failure [] evNewFail evUpd1 "555" (by decide) (by decide) (by decide)
    (by decide) (by decide) (by decide) (by decide) (by decide) (by decide)

/-- C2: two upserts carrying the same external order id leave exactly one
stored row for that id, whose `created_at` comes from the first application
and `updated_at` from the second, and whose dispatch columns
(`sent_to_doordash`, `doordash_order_id`, `doordash_sent_at`) are unchanged
by the second upsert — for both the SQLite and the MySQL backend. -/
theorem idempotent_upsert_preserves_dispatch (s : Store) (p1 p2 : Payload)
    (n1 n2 k : String) (hk1 : keyOf p1 = k) (hk2 : keyOf p2 = k)
    (hfresh : countKey s k = 0) :
    (countKey ((sqliteUpsert (sqliteUpsert s p1 n1).1 p2 n2).1) k = 1 ∧
     (findRec ((sqliteUpsert (sqliteUpsert s p1 n1).1 p2 n2).1) k).map (·.created_at)
        = some (createdAtOf p1 n1) ∧
     (findRec ((sqliteUpsert (sqliteUpsert s p1 n1).1 p2 n2).1) k).map (·.updated_at)
        = some n2 ∧
     (findRec ((sqliteUpsert (sqliteUpsert s p1 n1).1 p2 n2).1) k).map
          (fun r => (r.sent_to_doordash, r.doordash_order_id, r.doordash_sent_at))
        = (findRec ((sqliteUpsert s p1 n1).1) k).map
          (fun r => (r.sent_to_doordash, r.doordash_order_id, r.doordash_sent_at))) ∧
    (countKey ((mysqlUpsert (mysqlUpsert s p1 n1).1 p2 n2).1) k = 1 ∧
     (findRec ((mysqlUpsert (mysqlUpsert s p1 n1).1 p2 n2).1) k).map (·.created_at)
        = some (createdAtOf p1 n1) ∧
     (findRec ((mysqlUpsert (mysqlUpsert s p1 n1).1 p2 n2).1) k).map (·.updated_at)
        = some n2 ∧
     (findRec ((mysqlUpsert (mysqlUpsert s p1 n1).1 p2 n2).1) k).map
          (fun r => (r.sent_to_doordash, r.doordash_order_id, r.doordash_sent_at))
        = (findRec ((mysqlUpsert s p1 n1).1) k).map
          (fun r => (r.sent_to_doordash, r.doordash_order_id, r.doordash_sent_at))) := by
  constructor
  · obtain ⟨h1, h2, h3, h4, h5⟩ := upsert_twice_eq normalizeSqlite sqliteConflictUpdate
      sqliteConflictUpdate_key normalizeSqlite_key s p1 p2 n1 n2 k hk1 hk2 hfresh
    have h1' : sqliteUpsert s p1 n1
        = (s ++ [normalizeSqlite p1 n1], some (normalizeSqlite p1 n1)) := h1
    have h2' : sqliteUpsert (s ++ [normalizeSqlite p1 n1]) p2 n2
        = (updateRec (s ++ [normalizeSqlite p1 n1]) k
             (sqliteConflictUpdate (normalizeSqlite p2 n2)),
           some (sqliteConflictUpdate (normalizeSqlite p2 n2) (normalizeSqlite p1 n1))) := h2
    rw [h1']
    dsimp only
    rw [h2']
    dsimp only
    rw [h3, h5]
    exact ⟨h4, rfl, rfl, rfl⟩
  · obtain ⟨h1, h2, h3, h4, h5⟩ := upsert_twice_eq normalizeMySQL mysqlConflictUpdate
      mysqlConflictUpdate_key normalizeMySQL_key s p1 p2 n1 n2 k hk1 hk2 hfresh
    have h1' : mysqlUpsert s p1 n1
        = (s ++ [normalizeMySQL p1 n1], some (normalizeMySQL p1 n1)) := h1
    have h2' : mysqlUpsert (s ++ [normalizeMySQL p1 n1]) p2 n2
        = (updateRec (s ++ [normalizeMySQL p1 n1]) k
             (mysqlConflictUpdate (normalizeMySQL p2 n2)),
           some (mysqlConflictUpdate (normalizeMySQL p2 n2) (normalizeMySQL p1 n1))) := h2
    rw [h1']
    dsimp only
    rw [h2']
    dsimp only
    rw [h3, h5]
    exact ⟨h4, rfl, rfl, rfl⟩

theorem idempotent_upsert_preserves_dispatch_witness :
    countKey ((sqliteUpsert (sqliteUpsert [] pAna "t1").1 (pAnaUpd "accepted") "t2").1)
      "555" = 1 ∧
    (findRec ((sqliteUpsert (sqliteUpsert [] pAna "t1").1 (pAnaUpd "accepted") "t2").1)
      "555").map (·.created_at) = some (createdAtOf pAna "t1") :=
  ⟨((idempotent_upsert_preserves_dispatch [] pAna (pAnaUpd "accepted") "t1" "t2" "555"
      (by decide) (by decide) (by decide)).1).1,
   ((idempotent_upsert_preserves_dispatch [] pAna (pAnaUpd "accepted") "t1" "t2" "555"
      (by decide) (by decide) (by decide)).1).2.1⟩

/-- C7 counterexample: on the SQLite backend the `ON CONFLICT` clause does
not rewrite `items` — after two upserts with the same id, the stored items
are still those derived from the first payload, not the second. -/
theorem conflict_update_items_cex :
    (findRec ((sqliteUpsert (sqliteUpsert [] pItems1 "t1").1 pItems2 "t2").1) "9").map
        (·.items) = some (itemsOf pItems1) ∧
    itemsOf pItems1 ≠ itemsOf pItems2 := by
  constructor <;> decide

/-- C7 (amended): the MySQL `ON DUPLICATE KEY UPDATE` clause rewrites the
stored items (and status, price, timestamps, raw payload) from the newer
payload, while the SQLite `ON CONFLICT` clause rewrites only status, price,
`updated_at`, `fetched_at` and raw payload and leaves the stored items as
derived from the first payload. -/
theorem conflict_update_items_by_backend (s : Store) (p1 p2 : Payload)
    (n1 n2 k : String) (hk1 : keyOf p1 = k) (hk2 : keyOf p2 = k)
    (hfresh : countKey s k = 0) :
    ((findRec ((mysqlUpsert (mysqlUpsert s p1 n1).1 p2 n2).1) k).map (·.items)
        = some (itemsOf p2) ∧
     (findRec ((mysqlUpsert (mysqlUpsert s p1 n1).1 p2 n2).1) k).map (·.status)
        = some (jsOr p2.status (jsOr p2.order_status "unknown")) ∧
     (findRec ((mysqlUpsert (mysqlUpsert s p1 n1).1 p2 n2).1) k).map (·.raw_data)
        = some p2) ∧
    ((findRec ((sqliteUpsert (sqliteUpsert s p1 n1).1 p2 n2).1) k).map (·.items)
        = some (itemsOf p1) ∧
     (findRec ((sqliteUpsert (sqliteUpsert s p1 n1).1 p2 n2).1) k).map (·.status)
        = some (jsOr p2.status (jsOr p2.order_status "unknown")) ∧
     (findRec ((sqliteUpsert (sqliteUpsert s p1 n1).1 p2 n2).1) k).map (·.raw_data)
        = some p2) := by
  constructor
  · obtain ⟨h1, h2, h3, h4, h5⟩ := upsert_twice_eq normalizeMySQL mysqlConflictUpdate
      mysqlConflictUpdate_key normalizeMySQL_key s p1 p2 n1 n2 k hk1 hk2 hfresh
    have h1' : mysqlUpsert s p1 n1
        = (s ++ [normalizeMySQL p1 n1], some (normalizeMySQL p1 n1)) := h1
    have h2' : mysqlUpsert (s ++ [normalizeMySQL p1 n1]) p2 n2
        = (updateRec (s ++ [normalizeMySQL p1 n1]) k
             (mysqlConflictUpdate (normalizeMySQL p2 n2)),
           some (mysqlConflictUpdate (normalizeMySQL p2 n2) (normalizeMySQL p1 n1))) := h2
    rw [h1']
    dsimp only
    rw [h2']
    dsimp only
    rw [h3]
    exact ⟨rfl, rfl, rfl⟩
  · obtain ⟨h1, h2, h3, h4, h5⟩ := upsert_twice_eq normalizeSqlite sqliteConflictUpdate
      sqliteConflictUpdate_key normalizeSqlite_key s p1 p2 n1 n2 k hk1 hk2 hfresh
    have h1' : sqliteUpsert s p1 n1
        = (s ++ [normalizeSqlite p1 n1], some (normalizeSqlite p1 n1)) := h1
    have h2' : sqliteUpsert (s ++ [normalizeSqlite p1 n1]) p2 n2
        = (updateRec (s ++ [normalizeSqlite p1 n1]) k
             (sqliteConflictUpdate (normalizeSqlite p2 n2)),
           some (sqliteConflictUpdate (normalizeSqlite p2 n2) (normalizeSqlite p1 n1))) := h2
    rw [h1']
    dsimp only
    rw [h2']
    dsimp only
    rw [h3]
    exact ⟨rfl, rfl, rfl⟩

theorem conflict_update_items_by_backend_witness :
    (findRec ((mysqlUpsert (mysqlUpsert [] pItems1 "t1").1 pItems2 "t2").1) "9").map
        (·.items) = some (itemsOf pItems2) :=
  ((conflict_update_items_by_backend [] pItems1 pItems2 "t1" "t2" "9"
      (by decide) (by decide) (by decide)).1).1

/-- C10: a payload with neither `id` nor `order_id` is not rejected by
`insertOrUpdateOrder` — either backend stores it under the empty-string
external order id, and all such id-less payloads collapse into that single
row. -/
theorem idless_payloads_collapse (s : Store) (p1 p2 : Payload) (n1 n2 : String)
    (hid1 : p1.id = none) (hoid1 : p1.order_id = none)
    (hid2 : p2.id = none) (hoid2 : p2.order_id = none)
    (hfresh : countKey s "" = 0) :
    ((sqliteUpsert s p1 n1).2).map (·.gloriafood_order_id) = some "" ∧
    countKey ((sqliteUpsert (sqliteUpsert s p1 n1).1 p2 n2).1) "" = 1 ∧
    ((mysqlUpsert s p1 n1).2).map (·.gloriafood_order_id) = some "" ∧
    countKey ((mysqlUpsert (mysqlUpsert s p1 n1).1 p2 n2).1) "" = 1 := by
  have hk1 : keyOf p1 = "" := by simp [keyOf, jsOr, hid1, hoid1]
  have hk2 : keyOf p2 = "" := by simp [keyOf, jsOr, hid2, hoid2]
  obtain ⟨h1, h2, h3, h4, h5⟩ := upsert_twice_eq normalizeSqlite sqliteConflictUpdate
    sqliteConflictUpdate_key normalizeSqlite_key s p1 p2 n1 n2 "" hk1 hk2 hfresh
  obtain ⟨g1, g2, g3, g4, g5⟩ := upsert_twice_eq normalizeMySQL mysqlConflictUpdate
    mysqlConflictUpdate_key normalizeMySQL_key s p1 p2 n1 n2 "" hk1 hk2 hfresh
  have h1' : sqliteUpsert s p1 n1
      = (s ++ [normalizeSqlite p1 n1], some (normalizeSqlite p1 n1)) := h1
  have h2' : sqliteUpsert (s ++ [normalizeSqlite p1 n1]) p2 n2
      = (updateRec (s ++ [normalizeSqlite p1 n1]) ""
           (sqliteConflictUpdate (normalizeSqlite p2 n2)),
         some (sqliteConflictUpdate (normalizeSqlite p2 n2) (normalizeSqlite p1 n1))) := h2
  have g1' : mysqlUpsert s p1 n1
      = (s ++ [normalizeMySQL p1 n1], some (normalizeMySQL p1 n1)) := g1
  have g2' : mysqlUpsert (s ++ [normalizeMySQL p1 n1]) p2 n2
      = (updateRec (s ++ [normalizeMySQL p1 n1]) ""
           (mysqlConflictUpdate (normalizeMySQL p2 n2)),
         some (mysqlConflictUpdate (normalizeMySQL p2 n2) (normalizeMySQL p1 n1))) := g2
  refine ⟨?_, ?_, ?_, ?_⟩
  · rw [h1']
    dsimp only
    rw [Option.map_some', normalizeSqlite_key, hk1]
  · rw [h1']
    dsimp only
    rw [h2']
    dsimp only
    exact h4
  · rw [g1']
    dsimp only
    rw [Option.map_some', normalizeMySQL_key, hk1]
  · rw [g1']
    dsimp only
    rw [g2']
    dsimp only
    exact g4

theorem idless_payloads_collapse_witness :
    ((sqliteUpsert [] { status := some "pending" } "t1").2).map (·.gloriafood_order_id)
      = some "" ∧
    countKey ((sqliteUpsert (sqliteUpsert [] { status := some "pending" } "t1").1
        { status := some "accepted" } "t2").1) "" = 1 :=
  ⟨(idless_payloads_collapse [] { status := some "pending" } { status := some "accepted" }
      "t1" "t2" rfl rfl rfl rfl (by decide)).1,
   (idless_payloads_collapse [] { status := some "pending" } { status := some "accepted" }
      "t1" "t2" rfl rfl rfl rfl (by decide)).2.1⟩

/-- C5 counterexample: `getOrderStatus` does not fail fast — after a non-404
error on the first endpoint it still tries the next one and returns its
success; and when all three fail with the first error a 401, the thrown
error is still the not-found one because only the *last* error is
classified. -/
theorem status_lookup_fail_fast_cex :
    getOrderStatus "x" [.errResp 500, .ok "d1", .errNet] = .success "d1" ∧
    getOrderStatus "x" [.errResp 401, .errResp 404, .errResp 404] = .notFound := by
  constructor <;> decide

/-- C5 (amended): `getOrderStatus` tries the three lookup endpoints in order
and returns the first success (even after earlier non-404 errors); when all
three fail it classifies by the last endpoint's error alone — the not-found
error if that was a 404, the generic API error with its status otherwise. -/
theorem status_lookup_first_success_last_error (k : String) (rs : List EndpointResult)
    (hk : trimStr k ≠ "") :
    (∀ d, firstOk rs = some d → getOrderStatus k rs = .success d) ∧
    (firstOk rs = none → rs.getLast? = some (.errResp 404) →
        getOrderStatus k rs = .notFound) ∧
    (∀ c, c ≠ 404 → firstOk rs = none → rs.getLast? = some (.errResp c) →
        getOrderStatus k rs = .apiError c) := by
  refine ⟨?_, ?_, ?_⟩
  · intro d hd
    have hfst := statusLoop_fst rs none
    rw [hd] at hfst
    simp only [getOrderStatus, if_neg hk]
    cases hsl : statusLoop rs none with
    | mk a b =>
      rw [hsl] at hfst
      dsimp only at hfst
      subst hfst
      rfl
  · intro h404 hlast
    have hne : rs ≠ [] := by
      intro h
      rw [h] at hlast
      simp at hlast
    have hfst := statusLoop_fst rs none
    rw [h404] at hfst
    have hsnd := statusLoop_snd_of_noOk rs none h404 hne
    rw [hlast] at hsnd
    simp only [getOrderStatus, if_neg hk]
    cases hsl : statusLoop rs none with
    | mk a b =>
      rw [hsl] at hfst hsnd
      dsimp only at hfst hsnd
      subst hfst
      subst hsnd
      rfl
  · intro c hc h404 hlast
    have hne : rs ≠ [] := by
      intro h
      rw [h] at hlast
      simp at hlast
    have hfst := statusLoop_fst rs none
    rw [h404] at hfst
    have hsnd := statusLoop_snd_of_noOk rs none h404 hne
    rw [hlast] at hsnd
    simp only [getOrderStatus, if_neg hk]
    cases hsl : statusLoop rs none with
    | mk a b =>
      rw [hsl] at hfst hsnd
      dsimp only at hfst hsnd
      subst hfst
      subst hsnd
      simp [hc]

theorem status_lookup_first_success_last_error_witness :
    getOrderStatus "x" [.errResp 404, .ok "d1", .errNet] = .success "d1" :=
  (status_lookup_first_success_last_error "x" [.errResp 404, .ok "d1", .errNet]
    (by decide)).1 "d1" (by decide)

/-- C6 counterexample: for a payload carrying both root-level flat
`client_first_name`/`client_last_name` and a conflicting nested
`customer.name`, the SQLite backend's extractor returns the nested
`customer.name`, not the root-flat concatenation — it never reads the
root-level flat fields. -/
theorem extraction_precedence_cex :
    extractCustomerNameSqlite pAna = "Bob Stone" ∧
    joinName pAna.client_first_name pAna.client_last_name = "Ana Cruz" ∧
    "Bob Stone" ≠ "Ana Cruz" := by
  refine ⟨by decide, by decide, by decide⟩

/-- C6 (amended): the MySQL backend's extractor gives the root-level flat
`client_first_name`/`client_last_name` concatenation (first then last,
space-joined, trimmed) top precedence, beating every nested source; the
SQLite backend's extractor instead consults nested `client`, then nested
`customer.name`, then flat `customer_name`, so there a conflicting nested
`customer.name` wins over root-level flat fields. -/
theorem extraction_precedence_mysql (p : Payload)
    (h1 : jsTruthy p.client_first_name = true ∨ jsTruthy p.client_last_name = true)
    (h2 : joinName p.client_first_name p.client_last_name ≠ "") :
    extractCustomerNameMySQL p = joinName p.client_first_name p.client_last_name := by
  simp only [extractCustomerNameMySQL]
  rw [if_pos ⟨h1, h2⟩]

theorem extraction_precedence_mysql_witness :
    extractCustomerNameMySQL pAna = joinName pAna.client_first_name pAna.client_last_name :=
  extraction_precedence_mysql pAna (Or.inl (by decide)) (by decide)

/-- C8 counterexample: a `total_price` that fails to parse as a number
normalizes to `NaN` (JS `parseFloat` of a non-numeric string), not to 0. -/
theorem total_price_parse_failure_cex :
    totalPriceOf pBadPrice = none ∧ totalPriceOf pBadPrice ≠ some 0 := by
  refine ⟨by decide, by decide⟩

/-- C8 (amended): the normalized total price is taken from `total_price` or
else `total` and parsed with `parseFloat`; it defaults to 0 only when both
fields are absent or empty (the falsy chain falls through to the literal
`'0'`), while a present but unparseable value yields `NaN`, not 0; the
computation never throws either way. -/
theorem total_price_default_and_nan :
    (∀ p : Payload, jsTruthy p.total_price = false → jsTruthy p.total = false →
        totalPriceOf p = some 0) ∧
    totalPriceOf pBadPrice = none := by
  refine ⟨?_, by decide⟩
  intro p h1 h2
  simp only [totalPriceOf]
  rw [jsOr_of_not_truthy _ _ h1, jsOr_of_not_truthy _ _ h2, parseFloat_zero]

theorem total_price_default_and_nan_witness :
    totalPriceOf ({ } : Payload) = some 0 :=
  total_price_default_and_nan.1 { } rfl rfl

/-- C9: the MySQL store operations release the pooled connection on the
success path, but when `connection.query` throws, the `catch` handler
returns without releasing — the acquired handle leaks, contradicting the
acquire-and-release-on-all-exit-paths contract. -/
theorem mysql_pool_release_paths :
    mysqlInsertPoolTrace .queryFails .ok = [.acquire] ∧
    poolBalanced (mysqlInsertPoolTrace .queryFails .ok) = false ∧
    mysqlGetOrderPoolTrace .queryFails = [.acquire] ∧
    poolBalanced (mysqlGetOrderPoolTrace .queryFails) = false ∧
    poolBalanced (mysqlInsertPoolTrace .ok .ok) = true ∧
    poolBalanced (mysqlGetOrderPoolTrace .ok) = true ∧
    poolBalanced (mysqlInsertPoolTrace .getConnFails .ok) = true := by
  decide
